import Mathlib

/-!
# Verification of the smart-store ETL and OLAP-cubing pipeline

Shallow embedding of `src/analytics_project/etl_to_dw.py` and
`src/analytics_project/olap/cubing.py`.

Modelling conventions:
* A pandas frame becomes a `List` of records, one record type per table, with
  the frame's column names as field names.
* `pd.to_numeric(col, errors="coerce")` turns a cell that is not numeric (or
  empty) into null.  We model a raw numeric-ish cell by the *outcome* of that
  coercion: `Option Int` / `Option ℚ`, where `none` is the null produced for a
  non-numeric or empty cell.  `float` columns are modelled over `ℚ`.
* `df.dropna(subset=[...])` becomes a filter on `Option.isSome` of the listed
  fields; `df.drop_duplicates(subset=[k], keep="first")` becomes a first-
  occurrence deduplication on the key.
* SQLite tables become lists held in a `DB` record; `to_sql(..., "append")`
  becomes list append.  Store-level foreign-key enforcement (the `PRAGMA
  foreign_keys = ON`) is not part of the model: the claims below are settled
  at the loader level, i.e. about which rows the Python code hands to the
  store.
* Presentational columns of the date dimension (`full_date`, `month_name`,
  `week`) are not modelled; no claim mentions them.
-/

namespace SmartStore

/-! ## Raw and normalized rows (etl_to_dw.py)

The raw record types carry the source column names (before the `rename`
calls of `norm_customers` / `norm_products` / `norm_sales`); the normalized
types carry the canonical names.  Key columns hold the result of
`pd.to_numeric(..., errors="coerce").astype("Int64")`. -/

structure RawCustomer where
  customerid : Option Int
  name : String
  region : String
  joindate : String
deriving DecidableEq

structure Customer where
  customer_id : Int
  name : String
  region : String
  join_date : String
deriving DecidableEq

structure RawProduct where
  productid : Option Int
  productname : String
  category : String
deriving DecidableEq

structure Product where
  product_id : Int
  product_name : String
  category : String
deriving DecidableEq

structure RawSale where
  transactionid : Option Int
  customerid : Option Int
  productid : Option Int
  saleamount : Option ℚ
  saledate : String
deriving DecidableEq

/-- A row of the normalized sales frame.  `sales_id` is a nullable `Int64`
column in pandas, hence `Option Int` here. -/
structure Sale where
  sales_id : Option Int
  customer_id : Int
  product_id : Int
  sale_amount : ℚ
  sale_date : String
deriving DecidableEq

/-! ## Utility: `drop_dupes`

Source (`etl_to_dw.py` lines 21-22):
`df.drop_duplicates(subset=[key], keep="first")` — keep a row iff its key
was not seen on an earlier row. -/

def dropDupesGo {α κ : Type} [DecidableEq κ] (key : α → κ) :
    List κ → List α → List α
  | _, [] => []
  | seen, x :: xs =>
      if key x ∈ seen then dropDupesGo key seen xs
      else x :: dropDupesGo key (key x :: seen) xs

def drop_dupes {α κ : Type} [DecidableEq κ] (key : α → κ) (df : List α) :
    List α :=
  dropDupesGo key [] df

/-! ## Entity normalizers -/

/-- The customers frame after the coercion and
`dropna(subset=["customer_id"])` of `etl_to_dw.py` lines 37-38. -/
def coerce_customers (df : List RawCustomer) : List Customer :=
  df.filterMap fun r =>
    r.customerid.map fun cid =>
      { customer_id := cid, name := r.name, region := r.region,
        join_date := r.joindate }

/-- `norm_customers` (`etl_to_dw.py` lines 25-40): rename to canonical
columns, coerce `customer_id` to nullable integer, drop rows whose
`customer_id` is null, drop duplicate `customer_id`s keeping the first. -/
def norm_customers (df : List RawCustomer) : List Customer :=
  drop_dupes (fun r => r.customer_id) (coerce_customers df)

/-- The products frame after the coercion and
`dropna(subset=["product_id"])` of `etl_to_dw.py` lines 54-55. -/
def coerce_products (df : List RawProduct) : List Product :=
  df.filterMap fun r =>
    r.productid.map fun pid =>
      { product_id := pid, product_name := r.productname,
        category := r.category }

/-- `norm_products` (`etl_to_dw.py` lines 43-57): same shape as
`norm_customers`. -/
def norm_products (df : List RawProduct) : List Product :=
  drop_dupes (fun r => r.product_id) (coerce_products df)

/-- The guard of `norm_sales` (`etl_to_dw.py` line 81):
`if df["sales_id"].isna().any or df["sales_id"].duplicated().any():`.
`isna().any` lacks the call parentheses, so it is a bound-method object,
which Python treats as truthy; the disjunction therefore evaluates to
`True` on every frame, whatever `df` holds. -/
def salesIdGuard (df : List Sale) : Bool := true

/-- The sales frame after the coercions and the
`dropna(subset=["customer_id","product_id","sale_amount"])` of
`etl_to_dw.py` lines 76-79.  `sales_id` is *not* in the `dropna` subset. -/
def coerce_sales (df : List RawSale) : List Sale :=
  df.filterMap fun r =>
    match r.customerid, r.productid, r.saleamount with
    | some c, some p, some a =>
        some { sales_id := r.transactionid, customer_id := c, product_id := p,
               sale_amount := a, sale_date := r.saledate }
    | _, _, _ => none

/-- `norm_sales` (`etl_to_dw.py` lines 60-85): rename, coerce
`sales_id`/`customer_id`/`product_id` to nullable integer and `sale_amount`
to float, drop rows where `customer_id`, `product_id` or `sale_amount` is
null, then — whenever the guard holds — replace `sales_id` by the dense
sequence 1..N over the surviving row order (`df.index + 1` after
`reset_index`). -/
def norm_sales (df : List RawSale) : List Sale :=
  if salesIdGuard (coerce_sales df) then
    (coerce_sales df).enum.map fun ir =>
      { ir.2 with sales_id := some ((ir.1 : Int) + 1) }
  else
    coerce_sales df

/-! ## Date dimension (`generate_date_dimension`, etl_to_dw.py lines 87-117)

`datetime.strptime(s, '%Y-%m-%d')` parses a Gregorian calendar date and
rejects invalid ones; `pd.date_range(start, end, freq='D')` produces one
timestamp per calendar day from `start` to `end` inclusive (empty when
`start > end`).  We model a timestamp as a `Date` record and the day-by-day
walk of `date_range` directly; `toOrdinal` is the standard proleptic
Gregorian day number (rata die) used to compare timestamps and to measure
day differences. -/

def isLeap (y : Nat) : Bool :=
  (y % 4 == 0 && y % 100 != 0) || (y % 400 == 0)

def monthLength (y m : Nat) : Nat :=
  match m with
  | 1 => 31
  | 2 => if isLeap y then 29 else 28
  | 3 => 31
  | 4 => 30
  | 5 => 31
  | 6 => 30
  | 7 => 31
  | 8 => 31
  | 9 => 30
  | 10 => 31
  | 11 => 30
  | 12 => 31
  | _ => 0

structure Date where
  year : Nat
  month : Nat
  day : Nat
deriving DecidableEq

def Date.Valid (d : Date) : Prop :=
  1 ≤ d.year ∧ 1 ≤ d.month ∧ d.month ≤ 12 ∧ 1 ≤ d.day ∧
    d.day ≤ monthLength d.year d.month

instance (d : Date) : Decidable d.Valid := by
  unfold Date.Valid; infer_instance

/-- Days in months `1..m-1` of year `y`. -/
def daysBeforeMonth (y m : Nat) : Nat :=
  ((List.range (m - 1)).map (fun i => monthLength y (i + 1))).sum

/-- Leap years among years `1..n`. -/
def leapsUpTo (n : Nat) : Nat := n / 4 - n / 100 + n / 400

/-- Proleptic Gregorian day number: `⟨1,1,1⟩ ↦ 1`, successive days differ
by one. -/
def toOrdinal (d : Date) : Nat :=
  365 * (d.year - 1) + leapsUpTo (d.year - 1) +
    daysBeforeMonth d.year d.month + d.day

def nextDay (d : Date) : Date :=
  if d.day < monthLength d.year d.month then ⟨d.year, d.month, d.day + 1⟩
  else if d.month < 12 then ⟨d.year, d.month + 1, 1⟩
  else ⟨d.year + 1, 1, 1⟩

/-- `date_range.strftime('%Y%m%d').astype(int)` (line 107). -/
def dateId (d : Date) : Nat := d.year * 10000 + d.month * 100 + d.day

/-- The day-by-day walk of `pd.date_range(start, end, freq='D')`: emit the
current day while it does not exceed `stop`.  The fuel is the number of
days that can still be emitted. -/
def dateRangeGo : Nat → Date → Date → List Date
  | 0, _, _ => []
  | fuel + 1, cur, stop =>
      if toOrdinal cur ≤ toOrdinal stop then
        cur :: dateRangeGo fuel (nextDay cur) stop
      else []

def date_range (s e : Date) : List Date :=
  dateRangeGo (toOrdinal e + 1 - toOrdinal s) s e

/-- A row of the date dimension frame (presentational columns omitted, see
the file header). -/
structure DimDateRow where
  date_id : Nat
  year : Nat
  month : Nat
  day : Nat
deriving DecidableEq

def mkDimDateRow (d : Date) : DimDateRow :=
  { date_id := dateId d, year := d.year, month := d.month, day := d.day }

/-- `generate_date_dimension` after the two `strptime` calls. -/
def generate_date_dimension (s e : Date) : List DimDateRow :=
  (date_range s e).map mkDimDateRow

/-- Split a character list at every `-` (the separator of the
`'%Y-%m-%d'` format). -/
def splitOnDash : List Char → List (List Char)
  | [] => [[]]
  | c :: cs =>
      if c = '-' then [] :: splitOnDash cs
      else
        match splitOnDash cs with
        | [] => [[c]]
        | g :: gs => (c :: g) :: gs

def digitVal (c : Char) : Option Nat :=
  if 48 ≤ c.toNat ∧ c.toNat ≤ 57 then some (c.toNat - 48) else none

/-- A non-empty all-digit field read as a decimal number. -/
def parseNatDigits : List Char → Option Nat
  | [] => none
  | cs => cs.foldl (fun acc c => acc.bind fun n =>
      (digitVal c).map fun d => 10 * n + d) (some 0)

/-- `datetime.strptime(s, '%Y-%m-%d')`: split on `-`, read three decimal
fields, reject values outside the Gregorian calendar (`strptime` raises
`ValueError` on, e.g., a day beyond the month's length). -/
def parseYmd (s : String) : Option Date :=
  match (splitOnDash s.data).map parseNatDigits with
  | [some y, some m, some d] =>
      if 1 ≤ y ∧ 1 ≤ m ∧ m ≤ 12 ∧ 1 ≤ d ∧ d ≤ monthLength y m then
        some ⟨y, m, d⟩
      else none
  | _ => none

/-- `generate_date_dimension` on its string arguments: `strptime` raises on
an unparseable argument (modelled as `none`). -/
def generate_date_dimension_of_strings (start_date end_date : String) :
    Option (List DimDateRow) :=
  match parseYmd start_date, parseYmd end_date with
  | some s, some e => some (generate_date_dimension s e)
  | _, _ => none

/-! ## Warehouse and the load (`etl_to_dw.py` lines 119-265)

Each SQLite table is a list; `create_schema` drops and recreates the four
tables, so a load starts from empty tables.  `to_sql(..., if_exists=
"append")` appends.  The claims below are settled at the loader level, so
the `PRAGMA foreign_keys = ON` store behaviour is not modelled (see the
file header). -/

structure DB where
  dim_date : List DimDateRow
  customer : List Customer
  product : List Product
  sales : List Sale
deriving DecidableEq

/-- `create_schema` (lines 119-167): drop and recreate all four tables. -/
def create_schema : DB :=
  { dim_date := [], customer := [], product := [], sales := [] }

def insert_dim_date (df : List DimDateRow) (db : DB) : DB :=
  { db with dim_date := db.dim_date ++ df }

def insert_customers (df : List Customer) (db : DB) : DB :=
  { db with customer := db.customer ++ df }

def insert_products (df : List Product) (db : DB) : DB :=
  { db with product := db.product ++ df }

/-- `insert_sales` (lines 185-209): re-read the persisted customer and
product ids, then filter the batch — the source filters only on
`customer_id` (line 200); `valid_product_ids` is computed (lines 196-197)
but never used in a filter — and append what survives. -/
def insert_sales (df : List Sale) (db : DB) : DB :=
  let valid_customer_ids : List Int := db.customer.map fun r => r.customer_id
  let valid_product_ids : List Int := db.product.map fun r => r.product_id
  let filtered := df.filter fun r => valid_customer_ids.contains r.customer_id
  { db with sales := db.sales ++ filtered }

/-- The three input files as the loader sees them: `none` models a path for
which `path.exists()` is false. -/
structure InputFiles where
  customers_file : Option (List RawCustomer)
  products_file : Option (List RawProduct)
  sales_file : Option (List RawSale)
deriving DecidableEq

/-- `load_data_to_db` (lines 218-265): reset the schema, insert the date
dimension for 2024-01-01..2025-11-01, then for each of customers, products
and sales in that order: raise `FileNotFoundError` if the file is missing
(modelled as `Except.error`), otherwise normalize and insert.  The commit
happens only after all inserts succeed. -/
def load_data_to_db (files : InputFiles) : Except String DB :=
  let db := create_schema
  let db := insert_dim_date
    (generate_date_dimension ⟨2024, 1, 1⟩ ⟨2025, 11, 1⟩) db
  match files.customers_file with
  | none => .error "Missing file: customers_data_clean.csv"
  | some rawc =>
    let db := insert_customers (norm_customers rawc) db
    match files.products_file with
    | none => .error "Missing file: products_data_clean.csv"
    | some rawp =>
      let db := insert_products (norm_products rawp) db
      match files.sales_file with
      | none => .error "Missing file: sales_data_clean.csv"
      | some raws =>
        let db := insert_sales (norm_sales raws) db
        .ok db

/-! ## OLAP cubing (`olap/cubing.py`)

`main` reads the sales table back, converts `sale_date` with
`pd.to_datetime(errors="coerce")` (failure ↦ NaT, modelled `none`), drops
the NaT rows, computes `bad_date_count` on the *already filtered* frame
(source line 144 runs after the `dropna` of line 142), derives time
attributes and builds the cube over dimensions
`["DayofWeek", "product_id", "customer_id"]` with metrics
`{"sale_amount": ["sum", "mean"], "sales_id": "count"}`. -/

/-- A row of the `sales` table as read back from the warehouse. -/
structure DwSale where
  sales_id : Int
  customer_id : Int
  product_id : Int
  sale_amount : ℚ
  sale_date : String
deriving DecidableEq

/-- The same row after `pd.to_datetime(df["sale_date"], errors="coerce")`:
an unparseable date is NaT (`none`). -/
structure DwSaleParsed where
  sales_id : Int
  customer_id : Int
  product_id : Int
  sale_amount : ℚ
  sale_date : Option Date
deriving DecidableEq

def to_datetime_coerce (r : DwSale) : DwSaleParsed :=
  { sales_id := r.sales_id, customer_id := r.customer_id,
    product_id := r.product_id, sale_amount := r.sale_amount,
    sale_date := parseYmd r.sale_date }

/-- Step 2b of `main` (line 142): `dropna(subset=["sale_date"])`. -/
def drop_bad_dates (rows : List DwSaleParsed) : List DwSaleParsed :=
  rows.filter fun r => r.sale_date.isSome

/-- `bad_date_count` of `main` (line 144): `isna().sum()` — computed on the
frame from which the NaT rows were already dropped on line 142. -/
def bad_date_count (rows : List DwSale) : Nat :=
  (drop_bad_dates (rows.map to_datetime_coerce)).countP
    fun r => r.sale_date.isNone

/-- A fact row at cube-building time (after step 2d added the derived time
attributes; the dimension columns of `main` plus the metric columns). -/
structure CubeFact where
  DayofWeek : String
  product_id : Int
  customer_id : Int
  sale_amount : ℚ
  sales_id : Int
deriving DecidableEq

/-- The grouping key: the tuple of values of the dimension columns
`["DayofWeek", "product_id", "customer_id"]`. -/
abbrev DimKey := String × Int × Int

def dimKey (r : CubeFact) : DimKey :=
  (r.DayofWeek, r.product_id, r.customer_id)

/-- The rows of one group of `sales_df.groupby(dimensions)`: exactly the
rows whose dimension tuple equals the key, in frame order. -/
def groupRows (facts : List CubeFact) (k : DimKey) : List CubeFact :=
  facts.filter fun r => dimKey r = k

/-- The distinct group keys.  pandas lists groups in sorted key order; the
order of this list is not part of any claim (claim C8 treats the result as
a set), so we take the keys in first-occurrence order. -/
def groupKeys (facts : List CubeFact) : List DimKey :=
  (facts.map dimKey).dedup

/-- One output row of the cube: the aggregates of
`{"sale_amount": ["sum", "mean"], "sales_id": "count"}` plus the
`sale_ids` traceability column (`grouped["sales_id"].apply(list)`, in
group row order). -/
structure CubeRow where
  key : DimKey
  sale_amount_sum : ℚ
  sale_amount_mean : ℚ
  sales_id_count : Nat
  sale_ids : List Int
deriving DecidableEq

/-- The cube row of one group: `agg({"sale_amount": ["sum", "mean"],
"sales_id": "count"})` plus the `sale_ids` list, in group row order. -/
def cubeRowFor (facts : List CubeFact) (k : DimKey) : CubeRow :=
  { key := k
    sale_amount_sum := ((groupRows facts k).map fun r => r.sale_amount).sum
    sale_amount_mean :=
      ((groupRows facts k).map fun r => r.sale_amount).sum /
        ((groupRows facts k).length : ℚ)
    sales_id_count := (groupRows facts k).length
    sale_ids := (groupRows facts k).map fun r => r.sales_id }

/-- `create_olap_cube` (cubing.py lines 58-88): group, aggregate each
metric, attach the per-group list of `sales_id`s.  The `sale_ids` column is
assigned positionally (`reset_index(drop=True)`, line 77): both the
aggregate frame and the per-group lists come from the same `grouped`
object, so position `i` of both belongs to the `i`-th group key, which the
shared map over `groupKeys` captures. -/
def create_olap_cube (facts : List CubeFact) : List CubeRow :=
  (groupKeys facts).map (cubeRowFor facts)

/-- A cube row with its `sale_ids` column read as a multiset: claim C8
compares cubes as sets of aggregate rows, with the identifier list taken up
to order. -/
def abstractCubeRow (g : CubeRow) : DimKey × ℚ × ℚ × Nat × Multiset Int :=
  (g.key, g.sale_amount_sum, g.sale_amount_mean, g.sales_id_count,
    (g.sale_ids : Multiset Int))

/-- One metric of the `metrics` dict: a single aggregation-function name or
a list of them. -/
inductive AggSpec where
  | single (f : String)
  | multi (fs : List String)
deriving DecidableEq

/-- `col.rstrip("_")` (cubing.py line 112). -/
def rstripUnderscore (s : String) : String :=
  String.mk ((s.data.reverse.dropWhile fun c => c == '_').reverse)

/-- `generate_column_names` (cubing.py lines 90-115). -/
def generate_column_names (dimensions : List String)
    (metrics : List (String × AggSpec)) : List String :=
  let column_names := dimensions ++ metrics.flatMap fun cf =>
    match cf.2 with
    | .multi fs => fs.map fun f => cf.1 ++ "_" ++ f
    | .single f => [cf.1 ++ "_" ++ f]
  column_names.map rstripUnderscore

/-- The dimensions of `main` (cubing.py line 156). -/
def mainDimensions : List String := ["DayofWeek", "product_id", "customer_id"]

/-- The metrics of `main` (cubing.py line 157). -/
def mainMetrics : List (String × AggSpec) :=
  [("sale_amount", .multi ["sum", "mean"]), ("sales_id", .single "count")]

/-- The column header of the written cube: the explicit names plus the
appended `sale_ids` column (cubing.py lines 80-82). -/
def cubeColumns : List String :=
  generate_column_names mainDimensions mainMetrics ++ ["sale_ids"]

/-! ### Calendar lemmas -/

theorem monthLength_pos {y m : Nat} (h1 : 1 ≤ m) (h2 : m ≤ 12) :
    1 ≤ monthLength y m := by
  interval_cases m <;> simp only [monthLength] <;> first
    | omega
    | (split <;> omega)

theorem monthLength_le (y m : Nat) : monthLength y m ≤ 31 := by
  unfold monthLength
  split <;> first
    | omega
    | (split <;> omega)

theorem daysBeforeMonth_succ (y : Nat) {m : Nat} (h : 1 ≤ m) :
    daysBeforeMonth y (m + 1) = daysBeforeMonth y m + monthLength y m := by
  obtain ⟨k, rfl⟩ : ∃ k, m = k + 1 := ⟨m - 1, by omega⟩
  simp [daysBeforeMonth, List.range_succ]

theorem daysBeforeMonth_year (y : Nat) :
    daysBeforeMonth y 13 = if isLeap y then 366 else 365 := by
  have hr : List.range 12 = [0, 1, 2, 3, 4, 5, 6, 7, 8, 9, 10, 11] := rfl
  cases h : isLeap y <;>
    simp [daysBeforeMonth, hr, monthLength, h]

theorem leapsUpTo_succ (n : Nat) :
    leapsUpTo (n + 1) = leapsUpTo n + (if isLeap (n + 1) then 1 else 0) := by
  unfold leapsUpTo
  split <;> rename_i h <;>
    simp only [isLeap, Bool.or_eq_true, Bool.and_eq_true, beq_iff_eq,
      bne_iff_ne, ne_eq, Bool.not_eq_true] at h <;>
    omega

theorem toOrdinal_nextDay {d : Date} (h : d.Valid) :
    toOrdinal (nextDay d) = toOrdinal d + 1 := by
  obtain ⟨y, m, dd⟩ := d
  unfold Date.Valid at h
  dsimp only at h
  obtain ⟨hy, hm1, hm2, hd1, hd2⟩ := h
  unfold nextDay
  split <;> rename_i h1
  · dsimp only at h1
    unfold toOrdinal
    dsimp only
    omega
  · dsimp only at h1
    split <;> rename_i h2
    · dsimp only at h2
      have hday : dd = monthLength y m := by omega
      unfold toOrdinal
      dsimp only
      rw [daysBeforeMonth_succ y hm1]
      omega
    · dsimp only at h2
      have hm12 : m = 12 := by omega
      subst hm12
      have hml : monthLength y 12 = 31 := rfl
      have hday : dd = 31 := by omega
      subst hday
      obtain ⟨n, rfl⟩ : ∃ n, y = n + 1 := ⟨y - 1, by omega⟩
      have hy13 := daysBeforeMonth_succ (n + 1) (m := 12) (by omega)
      rw [hml] at hy13
      norm_num at hy13
      have hyr := daysBeforeMonth_year (n + 1)
      have hls := leapsUpTo_succ n
      have h1 : daysBeforeMonth (n + 1 + 1) 1 = 0 := rfl
      unfold toOrdinal
      dsimp only
      simp only [Nat.add_sub_cancel]
      cases hL : isLeap (n + 1) <;> rw [hL] at hyr hls <;>
        simp at hyr hls <;> omega

theorem nextDay_valid {d : Date} (h : d.Valid) : (nextDay d).Valid := by
  obtain ⟨y, m, dd⟩ := d
  unfold Date.Valid at h
  dsimp only at h
  obtain ⟨hy, hm1, hm2, hd1, hd2⟩ := h
  unfold nextDay
  split <;> rename_i h1
  · dsimp only at h1
    unfold Date.Valid
    dsimp only
    omega
  · dsimp only at h1
    split <;> rename_i h2
    · dsimp only at h2
      have hp := monthLength_pos (y := y) (m := m + 1) (by omega) (by omega)
      unfold Date.Valid
      dsimp only
      omega
    · have hp : monthLength (y + 1) 1 = 31 := rfl
      unfold Date.Valid
      dsimp only
      omega

theorem dateId_lt_nextDay {d : Date} (h : d.Valid) :
    dateId d < dateId (nextDay d) := by
  obtain ⟨y, m, dd⟩ := d
  unfold Date.Valid at h
  dsimp only at h
  obtain ⟨hy, hm1, hm2, hd1, hd2⟩ := h
  have hle := monthLength_le y m
  unfold nextDay
  split <;> rename_i h1
  · dsimp only at h1
    unfold dateId
    dsimp only
    omega
  · dsimp only at h1
    split <;> rename_i h2 <;>
      [dsimp only at h2; skip] <;>
      unfold dateId <;> dsimp only <;> omega

theorem parseYmd_valid {s : String} {d : Date} (h : parseYmd s = some d) :
    d.Valid := by
  unfold parseYmd at h
  split at h
  · split at h
    · rename_i hcond
      simp only [Option.some.injEq] at h
      subst h
      exact hcond
    · exact absurd h (by simp)
  · exact absurd h (by simp)

/-- Main induction for the day-by-day walk: with enough fuel and a valid
start, the walk emits exactly the dates whose ordinals run from
`toOrdinal cur` up to `toOrdinal stop`; every emitted date is valid, is
bounded below by the start's `dateId`, and the emitted `dateId`s are
strictly increasing. -/
theorem dateRangeGo_spec (n : Nat) :
    ∀ (fuel : Nat) (cur stop : Date), cur.Valid →
      toOrdinal stop + 1 - toOrdinal cur = n → n ≤ fuel →
      (dateRangeGo fuel cur stop).map toOrdinal =
          List.range' (toOrdinal cur) n ∧
        (∀ d ∈ dateRangeGo fuel cur stop, d.Valid) ∧
        (∀ d ∈ dateRangeGo fuel cur stop, dateId cur ≤ dateId d) ∧
        List.Pairwise (· < ·) ((dateRangeGo fuel cur stop).map dateId) := by
  induction n with
  | zero =>
    intro fuel cur stop hv hn hf
    cases fuel with
    | zero => simp [dateRangeGo]
    | succ f =>
      unfold dateRangeGo
      rw [if_neg (by omega)]
      simp
  | succ k ih =>
    intro fuel cur stop hv hn hf
    obtain ⟨f, rfl⟩ : ∃ f, fuel = f + 1 := ⟨fuel - 1, by omega⟩
    unfold dateRangeGo
    rw [if_pos (by omega)]
    have hv' := nextDay_valid hv
    have hord := toOrdinal_nextDay hv
    have hid := dateId_lt_nextDay hv
    obtain ⟨ih1, ih2, ih3, ih4⟩ :=
      ih f (nextDay cur) stop hv' (by omega) (by omega)
    refine ⟨?_, ?_, ?_, ?_⟩
    · simp only [List.map_cons, ih1, hord]
      rw [List.range'_succ]
    · intro d hd
      rcases List.mem_cons.mp hd with rfl | hd
      · exact hv
      · exact ih2 d hd
    · intro d hd
      rcases List.mem_cons.mp hd with rfl | hd
      · exact le_refl _
      · exact le_trans (le_of_lt hid) (ih3 d hd)
    · simp only [List.map_cons]
      refine List.Pairwise.cons ?_ ih4
      intro x hx
      simp only [List.mem_map] at hx
      obtain ⟨d, hd, rfl⟩ := hx
      exact lt_of_lt_of_le hid (ih3 d hd)

/-! ## Lemmas about `drop_dupes` and the normalizers -/

theorem dropDupesGo_filter {α κ : Type} [DecidableEq κ] (key : α → κ)
    (k : κ) :
    ∀ (l : List α) (seen : List κ),
      (dropDupesGo key seen l).filter (fun r => key r == k) =
        if k ∈ seen then [] else (l.filter fun r => key r == k).take 1
  | [], seen => by
      simp only [dropDupesGo, List.filter_nil, List.take_nil]
      split <;> rfl
  | x :: xs, seen => by
      unfold dropDupesGo
      by_cases hmem : key x ∈ seen
      · rw [if_pos hmem, dropDupesGo_filter key k xs seen]
        by_cases hk : k ∈ seen
        · rw [if_pos hk, if_pos hk]
        · rw [if_neg hk, if_neg hk, List.filter_cons]
          have hxk : ¬(key x == k) = true := by
            simp only [beq_iff_eq]
            rintro rfl
            exact hk hmem
          rw [if_neg hxk]
      · rw [if_neg hmem, List.filter_cons]
        by_cases hxk : (key x == k) = true
        · rw [if_pos hxk]
          rw [dropDupesGo_filter key k xs (key x :: seen)]
          have hk : k ∉ seen := by
            simp only [beq_iff_eq] at hxk
            subst hxk
            exact hmem
          have hkin : k ∈ key x :: seen := by
            simp only [beq_iff_eq] at hxk
            subst hxk
            exact List.mem_cons_self _ _
          rw [if_pos hkin, if_neg hk, List.filter_cons, if_pos hxk]
          rfl
        · rw [if_neg hxk, dropDupesGo_filter key k xs (key x :: seen)]
          have hne : (k ∈ key x :: seen) ↔ k ∈ seen := by
            simp only [List.mem_cons, or_iff_right_iff_imp]
            intro hkx
            exact absurd (by simp [hkx]) hxk
          by_cases hk : k ∈ seen
          · rw [if_pos (hne.mpr hk), if_pos hk]
          · rw [if_neg (fun hc => hk (hne.mp hc)), if_neg hk,
              List.filter_cons, if_neg hxk]

theorem drop_dupes_filter {α κ : Type} [DecidableEq κ] (key : α → κ)
    (k : κ) (l : List α) :
    (drop_dupes key l).filter (fun r => key r == k) =
      (l.filter fun r => key r == k).take 1 := by
  rw [drop_dupes, dropDupesGo_filter key k l []]
  rw [if_neg (List.not_mem_nil k)]

theorem norm_sales_congr {df df' : List RawSale}
    (h : coerce_sales df = coerce_sales df') :
    norm_sales df = norm_sales df' := by
  unfold norm_sales
  rw [h]

theorem norm_sales_length (df : List RawSale) :
    (norm_sales df).length = (coerce_sales df).length := by
  unfold norm_sales salesIdGuard
  simp

theorem enum_map_sales_id (l : List Sale) :
    ((l.enum.map fun ir =>
        { ir.2 with sales_id := some ((ir.1 : Int) + 1) }).map
      fun r => r.sales_id) =
    (List.range l.length).map fun i : Nat => some ((i : Int) + 1) := by
  rw [List.map_map, ← List.enum_map_fst l, List.map_map]
  rfl

/-! ## Claim theorems -/

/-- C2 (code-bug evidence): on an input whose coerced `sales_id` values are
all present and distinct (a single row with `sales_id` 5), `norm_sales`
does not preserve them: the guard on line 81 is always truthy (`isna().any`
is an uncalled bound method), so the key is regenerated to 1. -/
theorem norm_sales_regenerates_distinct_key :
    ((norm_sales
        [{ transactionid := some 5, customerid := some 1, productid := some 1, saleamount := some 2, saledate := "2024-01-03" }]).map
      fun r => r.sales_id) = [some 1] ∧
      some (5 : Int) ≠ some (1 : Int) :=
  ⟨rfl, by decide⟩

/-- C6 counterexample: a sales row whose primary-key column (`sales_id`)
is null after coercion is *not* excluded by `norm_sales` — it survives with
a regenerated key — contradicting the claim for the sale entity type. -/
theorem norm_sales_keeps_null_sales_id :
    norm_sales
        [{ transactionid := none, customerid := some 1, productid := some 1, saleamount := some 5, saledate := "2024-01-01" }] =
      [{ sales_id := some 1, customer_id := 1, product_id := 1, sale_amount := 5, sale_date := "2024-01-01" }] := rfl

/-- C6 amended: for customers and products, a row whose primary-key cell
coerces to null is excluded from the normalized output; for sales, a row
with a null `customer_id`, `product_id` or `sale_amount` is excluded,
while a null `sales_id` does not exclude the row (its key is
regenerated). -/
theorem null_key_rows_excluded_amended :
    (∀ (df1 df2 : List RawCustomer) (bad : RawCustomer),
        bad.customerid = none →
        norm_customers (df1 ++ bad :: df2) = norm_customers (df1 ++ df2)) ∧
    (∀ (df1 df2 : List RawProduct) (bad : RawProduct),
        bad.productid = none →
        norm_products (df1 ++ bad :: df2) = norm_products (df1 ++ df2)) ∧
    (∀ (df1 df2 : List RawSale) (bad : RawSale),
        bad.customerid = none ∨ bad.productid = none ∨
          bad.saleamount = none →
        norm_sales (df1 ++ bad :: df2) = norm_sales (df1 ++ df2)) := by
  refine ⟨?_, ?_, ?_⟩
  · intro df1 df2 bad h
    unfold norm_customers coerce_customers
    rw [List.filterMap_append, List.filterMap_append,
      List.filterMap_cons_none (by simp [h])]
  · intro df1 df2 bad h
    unfold norm_products coerce_products
    rw [List.filterMap_append, List.filterMap_append,
      List.filterMap_cons_none (by simp [h])]
  · intro df1 df2 bad h
    refine norm_sales_congr ?_
    unfold coerce_sales
    rw [List.filterMap_append, List.filterMap_append,
      List.filterMap_cons_none ?_]
    obtain ⟨tid, ci, pi, am, dt⟩ := bad
    dsimp only at h
    rcases h with h | h | h
    · subst h; rfl
    · subst h; cases ci <;> rfl
    · subst h; cases ci <;> cases pi <;> rfl

/-- C6 witness: the amended statement at a concrete input — a customer row
with a null key between two valid rows contributes nothing. -/
theorem null_key_rows_excluded_witness :
    norm_customers
        ([{ customerid := some 1, name := "A", region := "", joindate := "" }]
          ++ ({ customerid := none, name := "bad", region := "", joindate := "" } : RawCustomer) ::
            [{ customerid := some 2, name := "B", region := "",
               joindate := "" }]) =
      norm_customers
        ([{ customerid := some 1, name := "A", region := "", joindate := "" }]
          ++ [{ customerid := some 2, name := "B", region := "",
                joindate := "" }]) :=
  null_key_rows_excluded_amended.1 _ _ _ rfl

/-- C7 counterexample: two sales rows sharing the coerced primary key
`sales_id = 7` are *both* retained by `norm_sales` (the claim says exactly
one, the first, would be): the output's customer ids are `[1, 2]`. -/
theorem norm_sales_keeps_duplicate_keys :
    ((norm_sales
        [{ transactionid := some 7, customerid := some 1, productid := some 1, saleamount := some 10, saledate := "2024-01-01" },
         { transactionid := some 7, customerid := some 2, productid := some 2, saleamount := some 20, saledate := "2024-01-02" }]).map
      fun r => r.customer_id) = [1, 2] := rfl

/-- C7 amended: for customers and products, among the coerced rows sharing
a primary-key value exactly the first in source order is retained; sales
rows are never deduplicated on `sales_id` — every row surviving the
coercion filter is kept (and re-keyed). -/
theorem keep_first_duplicate_amended :
    (∀ (df : List RawCustomer) (k : Int),
        (norm_customers df).filter (fun r => r.customer_id == k) =
          ((coerce_customers df).filter fun r => r.customer_id == k).take 1) ∧
    (∀ (df : List RawProduct) (k : Int),
        (norm_products df).filter (fun r => r.product_id == k) =
          ((coerce_products df).filter fun r => r.product_id == k).take 1) ∧
    (∀ df : List RawSale,
        (norm_sales df).length = (coerce_sales df).length) := by
  refine ⟨?_, ?_, ?_⟩
  · intro df k
    exact drop_dupes_filter (fun r => r.customer_id) k (coerce_customers df)
  · intro df k
    exact drop_dupes_filter (fun r => r.product_id) k (coerce_products df)
  · intro df
    exact norm_sales_length df

/-- C7 witness: keep-first at a concrete input — of two customers with id
1 the first (name "A") is kept. -/
theorem keep_first_duplicate_witness :
    (norm_customers
        [{ customerid := some 1, name := "A", region := "", joindate := "" },
         { customerid := some 1, name := "B", region := "", joindate := "" }]).filter
        (fun r => r.customer_id == 1) =
      ((coerce_customers
        [{ customerid := some 1, name := "A", region := "", joindate := "" },
         { customerid := some 1, name := "B", region := "", joindate := "" }]).filter
        fun r => r.customer_id == 1).take 1 :=
  keep_first_duplicate_amended.1 _ 1

/-- C10: whatever the input, the sales normalizer's output carries
`sales_id` equal to the dense sequence `1, 2, ..., N` over the surviving
rows in order — coerced input `sales_id` values are never preserved. -/
theorem norm_sales_sales_id_dense (df : List RawSale) :
    ((norm_sales df).map fun r => r.sales_id) =
      (List.range (norm_sales df).length).map
        fun i : Nat => some ((i : Int) + 1) := by
  have h1 : norm_sales df = (coerce_sales df).enum.map fun ir =>
      { ir.2 with sales_id := some ((ir.1 : Int) + 1) } := rfl
  rw [h1, List.length_map, List.enum_length]
  exact enum_map_sales_id (coerce_sales df)

/-- C1 (code-bug evidence): the spec scenario — one customer `{id:1}`, no
products, one sale `{id:10, customer:1, product:9}` — does not end with
zero persisted sales rows at the loader level: `insert_sales` filters only
on `customer_id` (the fetched product-id set is never used, etl_to_dw.py
line 200), so the sale referencing the unknown product 9 survives the
filter and is handed to the store append. -/
theorem load_persists_sale_with_unknown_product :
    Except.map (fun db => (db.customer.length, db.product.length, db.sales))
        (load_data_to_db
          ⟨some [{ customerid := some 1, name := "A", region := "", joindate := "" }],
           some [],
           some [{ transactionid := some 10, customerid := some 1, productid := some 9, saleamount := some 5, saledate := "2024-01-05" }]⟩) =
      .ok (1, 0,
        [{ sales_id := some 1, customer_id := 1, product_id := 9, sale_amount := 5, sale_date := "2024-01-05" }]) :=
  rfl

/-- C4 (code-bug evidence): rows with an unparseable `sale_date` are indeed
dropped before grouping (second conjunct characterises the survivors), but
the logged `bad_date_count` is computed *after* the drop (cubing.py line
144 follows the `dropna` of line 142) and is therefore 0 on every input —
the third conjunct shows a concrete input where one row was dropped yet the
logged count is the first conjunct's 0, not 1. -/
theorem bad_date_rows_dropped_but_zero_logged :
    (∀ rows : List DwSale, bad_date_count rows = 0) ∧
    (∀ rows : List DwSale,
        (drop_bad_dates (rows.map to_datetime_coerce)).length =
          rows.countP fun r => (parseYmd r.sale_date).isSome) ∧
    (drop_bad_dates
        (([⟨1, 1, 1, 5, "2024-01-05"⟩, ⟨2, 1, 1, 6, "not-a-date"⟩] :
            List DwSale).map to_datetime_coerce)).length + 1 = 2 := by
  refine ⟨?_, ?_, ?_⟩
  · intro rows
    unfold bad_date_count drop_bad_dates
    refine List.countP_eq_zero.mpr ?_
    intro r hr
    rw [List.mem_filter] at hr
    obtain ⟨-, hsome⟩ := hr
    rcases hopt : r.sale_date with _ | d
    · rw [hopt] at hsome
      simp at hsome
    · simp [hopt]
  · intro rows
    unfold drop_bad_dates
    rw [← List.countP_eq_length_filter, List.countP_map]
    rfl
  · rfl

/-- C5: when any of the three required input files is missing, the load
raises (`Except.error`) — the failure is signalled to the caller and the
run aborts before the commit at the end of `load_data_to_db`. -/
theorem load_data_to_db_missing_file_errors (files : InputFiles)
    (h : files.customers_file = none ∨ files.products_file = none ∨
      files.sales_file = none) :
    ∃ msg, load_data_to_db files = .error msg := by
  obtain ⟨c, p, s⟩ := files
  dsimp only at h
  unfold load_data_to_db
  rcases h with h | h | h
  · subst h
    exact ⟨_, rfl⟩
  · subst h
    cases c
    · exact ⟨_, rfl⟩
    · exact ⟨_, rfl⟩
  · subst h
    cases c
    · exact ⟨_, rfl⟩
    · cases p
      · exact ⟨_, rfl⟩
      · exact ⟨_, rfl⟩

/-- C5 witness: with all three files missing the load signals an error. -/
theorem load_data_to_db_missing_file_witness :
    ((⟨none, none, none⟩ : InputFiles).customers_file = none ∨
      (⟨none, none, none⟩ : InputFiles).products_file = none ∨
      (⟨none, none, none⟩ : InputFiles).sales_file = none) ∧
    ∃ msg, load_data_to_db ⟨none, none, none⟩ = .error msg :=
  ⟨Or.inl rfl,
    load_data_to_db_missing_file_errors ⟨none, none, none⟩ (Or.inl rfl)⟩

/-- C3: over a parsed range `[D1, D2]` with `D1 ≤ D2`, the date dimension
has exactly `(D2 − D1 + 1)` rows; their underlying dates are the
consecutive calendar days from `D1` to `D2` inclusive (the row day-numbers
are exactly the ordinals from `D1`'s to `D2`'s); the rows are in
chronological order with strictly increasing — hence distinct — `date_id`s,
each equal to `year*10000 + month*100 + day`; and regenerating over the
same range yields identical output (the generator is pure). -/
theorem generate_date_dimension_spec (s e : String) (ds de : Date)
    (hs : parseYmd s = some ds) (he : parseYmd e = some de)
    (hle : toOrdinal ds ≤ toOrdinal de) :
    generate_date_dimension_of_strings s e =
        some (generate_date_dimension ds de) ∧
      (generate_date_dimension ds de).length =
        toOrdinal de - toOrdinal ds + 1 ∧
      ((generate_date_dimension ds de).map
          fun r => toOrdinal ⟨r.year, r.month, r.day⟩) =
        List.range' (toOrdinal ds) (toOrdinal de - toOrdinal ds + 1) ∧
      List.Pairwise (fun a b => a < b)
        ((generate_date_dimension ds de).map fun r => r.date_id) ∧
      (∀ r ∈ generate_date_dimension ds de,
        r.date_id = r.year * 10000 + r.month * 100 + r.day) ∧
      generate_date_dimension_of_strings s e =
        generate_date_dimension_of_strings s e := by
  have hv : ds.Valid := parseYmd_valid hs
  obtain ⟨h1, h2, h3, h4⟩ :=
    dateRangeGo_spec (toOrdinal de - toOrdinal ds + 1)
      (toOrdinal de + 1 - toOrdinal ds) ds de hv (by omega) (by omega)
  have hdr : date_range ds de =
      dateRangeGo (toOrdinal de + 1 - toOrdinal ds) ds de := rfl
  refine ⟨?_, ?_, ?_, ?_, ?_, rfl⟩
  · unfold generate_date_dimension_of_strings
    rw [hs, he]
  · unfold generate_date_dimension
    rw [List.length_map, hdr]
    have hl := congrArg List.length h1
    rw [List.length_map, List.length_range'] at hl
    exact hl
  · unfold generate_date_dimension
    rw [hdr, List.map_map]
    exact h1
  · unfold generate_date_dimension
    rw [hdr, List.map_map]
    exact h4
  · intro r hr
    unfold generate_date_dimension at hr
    rw [List.mem_map] at hr
    obtain ⟨d, hd, rfl⟩ := hr
    rfl

/-- C3 witness: the theorem instantiated at the concrete range
2024-02-27 .. 2024-03-02 (spanning the 2024 leap day): 5 rows. -/
theorem generate_date_dimension_spec_witness :
    parseYmd "2024-02-27" = some ⟨2024, 2, 27⟩ ∧
    parseYmd "2024-03-02" = some ⟨2024, 3, 2⟩ ∧
    toOrdinal ⟨2024, 2, 27⟩ ≤ toOrdinal ⟨2024, 3, 2⟩ ∧
    (generate_date_dimension ⟨2024, 2, 27⟩ ⟨2024, 3, 2⟩).length =
      toOrdinal ⟨2024, 3, 2⟩ - toOrdinal ⟨2024, 2, 27⟩ + 1 :=
  ⟨rfl, rfl, by decide,
    (generate_date_dimension_spec "2024-02-27" "2024-03-02" ⟨2024, 2, 27⟩
      ⟨2024, 3, 2⟩ rfl rfl (by decide)).2.1⟩

/-- C8: permuting the fact rows leaves the cube unchanged as a set of
aggregate rows — same dimension tuples, same `sum`/`mean`/`count` values,
and per group the same multiset of traced identifiers — and each group's
`sale_ids` holds exactly the `sales_id`s of that group's contributing fact
rows, no more, no fewer. -/
theorem create_olap_cube_perm_invariant (l₁ l₂ : List CubeFact)
    (h : l₁.Perm l₂) :
    ((create_olap_cube l₁).map abstractCubeRow).Perm
        ((create_olap_cube l₂).map abstractCubeRow) ∧
      ∀ g ∈ create_olap_cube l₁,
        (g.sale_ids : Multiset Int) =
          ((((groupRows l₁ g.key).map fun r => r.sales_id) :
            List Int) : Multiset Int) := by
  constructor
  · unfold create_olap_cube
    rw [List.map_map, List.map_map]
    have hkeys : (groupKeys l₁).Perm (groupKeys l₂) := (h.map dimKey).dedup
    have hpt : ∀ k ∈ groupKeys l₁,
        (abstractCubeRow ∘ cubeRowFor l₁) k =
          (abstractCubeRow ∘ cubeRowFor l₂) k := by
      intro k _
      have hg : (groupRows l₁ k).Perm (groupRows l₂ k) := h.filter _
      have hsum : ((groupRows l₁ k).map fun r => r.sale_amount).sum =
          ((groupRows l₂ k).map fun r => r.sale_amount).sum :=
        (hg.map fun r => r.sale_amount).sum_eq
      have hlen : (groupRows l₁ k).length = (groupRows l₂ k).length :=
        hg.length_eq
      have hids := Multiset.coe_eq_coe.mpr (hg.map fun r => r.sales_id)
      simp [Function.comp, abstractCubeRow, cubeRowFor, hsum, hlen, hids]
    rw [List.map_congr_left hpt]
    exact hkeys.map _
  · intro g hg
    unfold create_olap_cube at hg
    rw [List.mem_map] at hg
    obtain ⟨k, hk, rfl⟩ := hg
    rfl

/-- C8 witness: the theorem at a two-row fact table and its swap. -/
theorem create_olap_cube_perm_witness :
    (([⟨"Mon", 1, 1, 10, 1⟩, ⟨"Mon", 1, 2, 20, 2⟩] : List CubeFact).Perm
        [⟨"Mon", 1, 2, 20, 2⟩, ⟨"Mon", 1, 1, 10, 1⟩]) ∧
    ((create_olap_cube
        [⟨"Mon", 1, 1, 10, 1⟩, ⟨"Mon", 1, 2, 20, 2⟩]).map
      abstractCubeRow).Perm
        ((create_olap_cube
            [⟨"Mon", 1, 2, 20, 2⟩, ⟨"Mon", 1, 1, 10, 1⟩]).map
          abstractCubeRow) :=
  have hp : ([⟨"Mon", 1, 1, 10, 1⟩, ⟨"Mon", 1, 2, 20, 2⟩] :
      List CubeFact).Perm [⟨"Mon", 1, 2, 20, 2⟩, ⟨"Mon", 1, 1, 10, 1⟩] :=
    List.Perm.swap _ _ _
  ⟨hp, (create_olap_cube_perm_invariant _ _ hp).1⟩

/-- C9: building the cube over an empty fact set yields a cube with zero
rows, and the column header is the dimension columns, the generated metric
columns and the traceability column. -/
theorem create_olap_cube_empty :
    create_olap_cube ([] : List CubeFact) = [] ∧
      cubeColumns = ["DayofWeek", "product_id", "customer_id",
        "sale_amount_sum", "sale_amount_mean", "sales_id_count",
        "sale_ids"] :=
  ⟨rfl, rfl⟩

end SmartStore
